import Mathlib

/-!
Verification of the on-demand pyramid tiling and caching engine of
`src/tileGenerator.js` (web-based-image-viewer).

The pure pyramid geometry (`calculateLevels`, the per-level scale, scaled
dimensions, tile regions and the source-region clipping inside
`generateTile`) is embedded as exact arithmetic over `ℚ`:
`Math.ceil(Math.log2 r)` is `Int.clog 2 r`, `Math.pow 2 n` for an integer
`n` is `(2 : ℚ) ^ (n : ℤ)`, `Math.ceil` / `Math.floor` are `Int.ceil` /
`Int.floor`.

The stateful operations (`generateTileOnDemand`, image resolution,
`processUpload` and its temp-directory cleanup) are embedded as explicit
state-passing functions over a record of the relevant filesystem and cache
state, with failure injected through explicit parameters where the
JavaScript would throw.
-/

namespace TileGen

/-- `calculateLevels` from tileGenerator.js:
`Math.ceil(Math.log2(maxDimension / tileSize)) + 1` with
`maxDimension = Math.max(width, height)`. -/
def calculateLevels (width height tileSize : ℕ) : ℤ :=
  Int.clog 2 ((max width height : ℚ) / (tileSize : ℚ)) + 1

/-- The scale factor for a level, from `generateTile`:
`Math.pow(2, maxLevels - level - 1)`. -/
def scale (width height tileSize : ℕ) (level : ℤ) : ℚ :=
  (2 : ℚ) ^ (calculateLevels width height tileSize - level - 1)

/-- `scaledWidth` from `generateTile`: `Math.ceil(originalWidth / scale)`. -/
def scaledWidth (width height tileSize : ℕ) (level : ℤ) : ℤ :=
  ⌈(width : ℚ) / scale width height tileSize level⌉

/-- `scaledHeight` from `generateTile`: `Math.ceil(originalHeight / scale)`. -/
def scaledHeight (width height tileSize : ℕ) (level : ℤ) : ℤ :=
  ⌈(height : ℚ) / scale width height tileSize level⌉

/-- A tile region in scaled-level coordinates, as computed in `generateTile`. -/
structure Region where
  left : ℤ
  top : ℤ
  w : ℤ
  h : ℤ
deriving Repr, DecidableEq

/-- The scaled-level region of tile `(level, x, y)`, from `generateTile`:
`left = x*tileSize; top = y*tileSize; width = min(tileSize, scaledWidth-left);
height = min(tileSize, scaledHeight-top)`, with
`if (left >= scaledWidth || top >= scaledHeight) return null`. -/
def tileRegion (width height tileSize : ℕ) (level : ℤ) (x y : ℕ) :
    Option Region :=
  let sw := scaledWidth width height tileSize level
  let sh := scaledHeight width height tileSize level
  let left : ℤ := x * tileSize
  let top : ℤ := y * tileSize
  if left ≥ sw ∨ top ≥ sh then none
  else some ⟨left, top, min tileSize (sw - left), min tileSize (sh - top)⟩

/-- A region in source-pixel coordinates, as passed to `.extract`. -/
structure SourceRegion where
  left : ℤ
  top : ℤ
  w : ℤ
  h : ℤ
deriving Repr, DecidableEq

/-- The source region extracted by `generateTile`:
`originalLeft = Math.floor(left * scale)`, `originalTop = Math.floor(top * scale)`,
`originalWidth_region = Math.ceil(width * scale)`,
`originalHeight_region = Math.ceil(height * scale)`, then the `.extract` call
clips with `width: Math.min(originalWidth_region, originalWidth - originalLeft)`
and `height: Math.min(originalHeight_region, originalHeight - originalTop)`. -/
def toSourceRegion (width height tileSize : ℕ) (level : ℤ) (r : Region) :
    SourceRegion :=
  let s := scale width height tileSize level
  let originalLeft := ⌊(r.left : ℚ) * s⌋
  let originalTop := ⌊(r.top : ℚ) * s⌋
  let originalWidthRegion := ⌈(r.w : ℚ) * s⌉
  let originalHeightRegion := ⌈(r.h : ℚ) * s⌉
  ⟨originalLeft, originalTop,
    min originalWidthRegion ((width : ℤ) - originalLeft),
    min originalHeightRegion ((height : ℤ) - originalTop)⟩

/-- Modelled from the spec: `maxLevel = ceil(log2(max(width,height)/tileSize))`,
the index of the finest pyramid level. -/
def spec_maxLevel (width height tileSize : ℕ) : ℤ :=
  Int.clog 2 ((max width height : ℚ) / (tileSize : ℚ))

/-- JS `String.prototype.startsWith`: a character-sequence prefix test,
used by the directory-scan fallback `files.find(f => f.startsWith(imageId))`. -/
def jsStartsWith (s p : String) : Bool := p.data.isPrefixOf s.data

/-- The image-resolution step of `generateTileOnDemand` (lines 166-178):
first `fs.access` on the exact path `${imageId}.tif` under the original
directory, then on failure `files.find(f => f.startsWith(imageId))` over the
directory listing; `none` models the thrown `Image not found` error. -/
def resolveImage (originalDirFiles : List String) (imageId : String) :
    Option String :=
  if (imageId ++ ".tif") ∈ originalDirFiles then some (imageId ++ ".tif")
  else originalDirFiles.find? (fun f => jsStartsWith f imageId)

/-- The filesystem and cache state touched by the tile path: the set of tile
files on disk, the set of imageIds in `this.metadataCache`, and counters for
the two kinds of sharp invocations (metadata probes and the
extract/resize/encode render call). -/
structure TileState where
  tiles : List String
  metadataCached : List String
  probeCalls : ℕ
  codecCalls : ℕ
deriving Repr, DecidableEq

/-- `path.join(this.tilesDir, imageId, String(level), x + "_" + y + ".jpg")`
with `tilesDir = path.join(uploadsDir, "tiles")`. -/
def tilePath (uploadsDir imageId : String) (level : ℤ) (x y : ℕ) : String :=
  uploadsDir ++ "/tiles/" ++ imageId ++ "/" ++ toString level ++ "/" ++
    toString x ++ "_" ++ toString y ++ ".jpg"

/-- `getCachedMetadata` (lines 65-75): return the cached entry if present,
otherwise probe the file with sharp (`getImageMetadata`) and cache the result.
The dimensions themselves are carried separately as parameters of the callers
(the source file is immutable, so cached and probed values coincide); the
state records which ids are cached and how many probes ran. -/
def getCachedMetadata (st : TileState) (imageId : String) : TileState :=
  if imageId ∈ st.metadataCached then st
  else { st with
          metadataCached := imageId :: st.metadataCached,
          probeCalls := st.probeCalls + 1 }

/-- `generateTile` (lines 100-155) as a state transformer: compute the
scaled-level region; if the tile is outside the image bounds return `null`
without touching the codec or the disk, otherwise run the sharp
extract/resize/encode pipeline and write `outputPath`. -/
def generateTile (st : TileState) (outputPath : String) (level : ℤ)
    (x y tileSize originalWidth originalHeight : ℕ) :
    Option String × TileState :=
  match tileRegion originalWidth originalHeight tileSize level x y with
  | none => (none, st)
  | some _ =>
      (some outputPath,
        { st with
            tiles := outputPath :: st.tiles,
            codecCalls := st.codecCalls + 1 })

/-- `generateTileOnDemand` (lines 165-205): resolve the source file (throwing
`Image not found` on failure), fetch cached metadata, build the tile cache
path, return it immediately if the file exists, otherwise call `generateTile`
(whose return value is discarded) and return the path. -/
def generateTileOnDemand (st : TileState) (originalDirFiles : List String)
    (uploadsDir imageId : String) (width height : ℕ) (level : ℤ) (x y : ℕ) :
    Except String String × TileState :=
  match resolveImage originalDirFiles imageId with
  | none => (Except.error ("Image not found: " ++ imageId), st)
  | some _ =>
      let st1 := getCachedMetadata st imageId
      let tileSize := 256
      let tp := tilePath uploadsDir imageId level x y
      if tp ∈ st1.tiles then (Except.ok tp, st1)
      else
        (Except.ok tp,
          (generateTile st1 tp level x y tileSize width height).2)

/-- The directories touched by `processUpload`: the entries of
`uploads/temp` (name paired with `stat.isFile()`) and the filenames in
`uploads/original` (the image registry). -/
structure UploadState where
  temp : List (String × Bool)
  originals : List String
deriving Repr, DecidableEq

/-- The result of the sharp metadata probe in `processUpload`. -/
structure ImageMeta where
  width : ℕ
  height : ℕ
  format : String
deriving Repr, DecidableEq

/-- The descriptor returned by `processUpload` (lines 240-249), minus the
wall-clock `uploadedAt` timestamp. -/
structure ImageInfo where
  id : String
  width : ℕ
  height : ℕ
  tileSize : ℕ
  format : String
  levels : ℤ
  originalFormat : String
deriving Repr, DecidableEq

/-- Outcome of `processUpload`: success, or the two throwing exits
(`getImageMetadata` rejects, `fs.rename` rejects). -/
inductive UploadOutcome where
  | ok (info : ImageInfo)
  | probeFailed
  | moveFailed
deriving Repr, DecidableEq

/-- `processUpload` (lines 215-250): probe metadata (a failure throws before
anything is moved), rename the temp file into the original directory (a
failure throws with nothing registered), then best-effort delete every
regular file in `uploads/temp`, swallowing cleanup errors, and return the
descriptor. `probe` is the result of the probe (`none` = throw), `moveOk` and
`cleanupOk` inject `fs.rename` / cleanup-loop failures. -/
def processUpload (st : UploadState) (probe : Option ImageMeta)
    (moveOk cleanupOk : Bool) (imageId tempName ext : String) :
    UploadOutcome × UploadState :=
  match probe with
  | none => (UploadOutcome.probeFailed, st)
  | some metadata =>
      if moveOk then
        let moved : UploadState :=
          { temp := st.temp.filter (fun e => e.1 != tempName),
            originals := (imageId ++ ext) :: st.originals }
        let cleaned : UploadState :=
          if cleanupOk then
            { moved with temp := moved.temp.filter (fun e => !e.2) }
          else moved
        (UploadOutcome.ok
          { id := imageId
            width := metadata.width
            height := metadata.height
            tileSize := 256
            format := "jpeg"
            levels := calculateLevels metadata.width metadata.height 256
            originalFormat := metadata.format }, cleaned)
      else (UploadOutcome.moveFailed, st)

theorem clog_ten_thousand : Int.clog 2 ((625 : ℚ) / 16) = 6 := by
  have h1 : Int.clog 2 ((625 : ℚ) / 16) ≤ 6 := by
    rw [← Int.le_zpow_iff_clog_le (by norm_num) (by norm_num : (0:ℚ) < 625 / 16)]
    norm_num
  have h2 : (5 : ℤ) < Int.clog 2 ((625 : ℚ) / 16) := by
    rw [← Int.zpow_lt_iff_lt_clog (by norm_num) (by norm_num : (0:ℚ) < 625 / 16)]
    norm_num
  omega

theorem calculateLevels_example : calculateLevels 10000 8000 256 = 7 := by
  norm_num [calculateLevels, clog_ten_thousand]

theorem spec_maxLevel_example : spec_maxLevel 10000 8000 256 = 6 := by
  norm_num [spec_maxLevel, clog_ten_thousand]

theorem scale_example_six : scale 10000 8000 256 6 = 1 := by
  norm_num [scale, calculateLevels_example]

theorem scale_example_zero : scale 10000 8000 256 0 = 64 := by
  rw [scale, calculateLevels_example]
  norm_num

theorem scaledWidth_example_six : scaledWidth 10000 8000 256 6 = 10000 := by
  rw [scaledWidth, scale_example_six, div_one]
  norm_num

theorem scaledHeight_example_six : scaledHeight 10000 8000 256 6 = 8000 := by
  rw [scaledHeight, scale_example_six, div_one]
  norm_num

theorem scaledWidth_example_zero : scaledWidth 10000 8000 256 0 = 157 := by
  rw [scaledWidth, scale_example_zero]
  rw [Int.ceil_eq_iff]
  norm_num

theorem scaledHeight_example_zero : scaledHeight 10000 8000 256 0 = 125 := by
  rw [scaledHeight, scale_example_zero]
  rw [Int.ceil_eq_iff]
  norm_num

/-- Claim C1: the level count computed by `calculateLevels` equals
`maxLevel + 1` with `maxLevel = ceil(log2(max(width,height)/tileSize))`, the
per-level scale used by `generateTile` equals `2^(maxLevel - level)`, and for
a 10000×8000 image with tileSize 256: `maxLevel = 6`, `scale 6 = 1` and
`scale 0 = 64`. -/
theorem pyramid_levelCount_and_scale (width height tileSize : ℕ) :
    calculateLevels width height tileSize =
      spec_maxLevel width height tileSize + 1 ∧
    (∀ level : ℤ, scale width height tileSize level =
      (2 : ℚ) ^ (spec_maxLevel width height tileSize - level)) ∧
    spec_maxLevel 10000 8000 256 = 6 ∧
    scale 10000 8000 256 6 = 1 ∧
    scale 10000 8000 256 0 = 64 := by
  refine ⟨rfl, ?_, spec_maxLevel_example, scale_example_six, scale_example_zero⟩
  intro level
  rw [scale, calculateLevels, spec_maxLevel]
  congr 1
  ring

/-- Claim C4: at the finest level `maxLevel = calculateLevels - 1`, the scale
is exactly 1 and the scaled dimensions reproduce the original dimensions with
no rounding loss, for every width, height and tileSize. -/
theorem scaledDim_maxLevel_roundtrip (width height tileSize : ℕ) :
    scale width height tileSize (calculateLevels width height tileSize - 1) = 1 ∧
    scaledWidth width height tileSize
      (calculateLevels width height tileSize - 1) = width ∧
    scaledHeight width height tileSize
      (calculateLevels width height tileSize - 1) = height := by
  have hs : scale width height tileSize
      (calculateLevels width height tileSize - 1) = 1 := by
    rw [scale, show calculateLevels width height tileSize -
      (calculateLevels width height tileSize - 1) - 1 = 0 by ring, zpow_zero]
  refine ⟨hs, ?_, ?_⟩
  · rw [scaledWidth, hs, div_one, Int.ceil_natCast]
  · rw [scaledHeight, hs, div_one, Int.ceil_natCast]

/-- Claim C5: `tileRegion` is total with exactly two outcomes: for an
in-bounds coordinate it returns the scaled-level region with
`left = x*tileSize`, `top = y*tileSize`, `w = min(tileSize, scaledWidth-left)`,
`h = min(tileSize, scaledHeight-top)`; for `left ≥ scaledWidth` or
`top ≥ scaledHeight` it returns no region. -/
theorem tileRegion_characterization (width height tileSize : ℕ) (level : ℤ)
    (x y : ℕ) :
    (((x * tileSize : ℤ) < scaledWidth width height tileSize level ∧
      (y * tileSize : ℤ) < scaledHeight width height tileSize level) →
      tileRegion width height tileSize level x y =
        some ⟨(x * tileSize : ℤ), (y * tileSize : ℤ),
          min (tileSize : ℤ)
            (scaledWidth width height tileSize level - x * tileSize),
          min (tileSize : ℤ)
            (scaledHeight width height tileSize level - y * tileSize)⟩) ∧
    ((scaledWidth width height tileSize level ≤ (x * tileSize : ℤ) ∨
      scaledHeight width height tileSize level ≤ (y * tileSize : ℤ)) →
      tileRegion width height tileSize level x y = none) := by
  constructor
  · intro h
    rw [tileRegion]
    rw [if_neg (not_or.mpr ⟨not_le.mpr h.1, not_le.mpr h.2⟩)]
  · intro h
    rw [tileRegion]
    rw [if_pos h]

theorem tileRegion_example_six :
    tileRegion 10000 8000 256 6 0 0 = some ⟨0, 0, 256, 256⟩ := by
  rw [tileRegion, scaledWidth_example_six, scaledHeight_example_six]
  norm_num

theorem tileRegion_example_oob :
    tileRegion 10000 8000 256 0 1 0 = none := by
  rw [tileRegion, scaledWidth_example_zero, scaledHeight_example_zero]
  norm_num

theorem tileRegion_characterization_witness :
    tileRegion 10000 8000 256 6 0 0 = some ⟨0, 0, 256, 256⟩ ∧
    tileRegion 10000 8000 256 0 1 0 = none := by
  constructor
  · have h := (tileRegion_characterization 10000 8000 256 6 0 0).1
    rw [scaledWidth_example_six, scaledHeight_example_six] at h
    rw [h (by norm_num)]
    norm_num
  · have h := (tileRegion_characterization 10000 8000 256 0 1 0).2
    rw [scaledWidth_example_zero, scaledHeight_example_zero] at h
    exact h (by norm_num)

theorem floor_scale_bound (dim : ℕ) (pos : ℤ) (s : ℚ) (hs : 0 < s)
    (h0 : 0 ≤ pos) (hlt : pos < ⌈(dim : ℚ) / s⌉) :
    0 ≤ ⌊(pos : ℚ) * s⌋ ∧ ⌊(pos : ℚ) * s⌋ < (dim : ℤ) := by
  constructor
  · exact Int.floor_nonneg.mpr (mul_nonneg (by exact_mod_cast h0) hs.le)
  · rw [Int.floor_lt]
    have h3 : (pos : ℚ) < (dim : ℚ) / s := Int.lt_ceil.mp hlt
    have h4 := (lt_div_iff₀ hs).mp h3
    push_cast
    exact h4

/-- Claim C6: for every non-empty scaled-level tile region, the clipped
source region handed to the codec `.extract` call lies inside
`[0, width) × [0, height)`: its left/top are non-negative and strictly less
than the source dimensions, and `left + w ≤ width`, `top + h ≤ height`. -/
theorem sourceRegion_within_bounds (width height tileSize : ℕ) (level : ℤ)
    (x y : ℕ) (r : Region)
    (hr : tileRegion width height tileSize level x y = some r) :
    0 ≤ (toSourceRegion width height tileSize level r).left ∧
    (toSourceRegion width height tileSize level r).left < (width : ℤ) ∧
    0 ≤ (toSourceRegion width height tileSize level r).top ∧
    (toSourceRegion width height tileSize level r).top < (height : ℤ) ∧
    (toSourceRegion width height tileSize level r).left +
      (toSourceRegion width height tileSize level r).w ≤ (width : ℤ) ∧
    (toSourceRegion width height tileSize level r).top +
      (toSourceRegion width height tileSize level r).h ≤ (height : ℤ) := by
  have hspos : (0 : ℚ) < scale width height tileSize level := by
    rw [scale]
    exact zpow_pos (by norm_num) _
  rw [tileRegion] at hr
  by_cases hcond : (x * tileSize : ℤ) ≥ scaledWidth width height tileSize level ∨
      (y * tileSize : ℤ) ≥ scaledHeight width height tileSize level
  · rw [if_pos hcond] at hr
    exact absurd hr (by simp)
  · rw [if_neg hcond] at hr
    push_neg at hcond
    obtain ⟨hx, hy⟩ := hcond
    obtain rfl : r = ⟨(x * tileSize : ℤ), (y * tileSize : ℤ),
        min (tileSize : ℤ)
          (scaledWidth width height tileSize level - x * tileSize),
        min (tileSize : ℤ)
          (scaledHeight width height tileSize level - y * tileSize)⟩ :=
      (Option.some.inj hr).symm
    rw [scaledWidth] at hx
    rw [scaledHeight] at hy
    have hxb := floor_scale_bound width (x * tileSize)
      (scale width height tileSize level) hspos (by positivity) hx
    have hyb := floor_scale_bound height (y * tileSize)
      (scale width height tileSize level) hspos (by positivity) hy
    simp only [toSourceRegion]
    refine ⟨hxb.1, hxb.2, hyb.1, hyb.2, ?_, ?_⟩
    · calc ⌊((x * tileSize : ℤ) : ℚ) * scale width height tileSize level⌋ +
            min ⌈(((min (tileSize : ℤ)
                (scaledWidth width height tileSize level - x * tileSize)) : ℤ) : ℚ) *
                scale width height tileSize level⌉
              ((width : ℤ) -
                ⌊((x * tileSize : ℤ) : ℚ) * scale width height tileSize level⌋) ≤
          ⌊((x * tileSize : ℤ) : ℚ) * scale width height tileSize level⌋ +
            ((width : ℤ) -
              ⌊((x * tileSize : ℤ) : ℚ) * scale width height tileSize level⌋) :=
            add_le_add_left (min_le_right _ _) _
        _ = (width : ℤ) := by ring
    · calc ⌊((y * tileSize : ℤ) : ℚ) * scale width height tileSize level⌋ +
            min ⌈(((min (tileSize : ℤ)
                (scaledHeight width height tileSize level - y * tileSize)) : ℤ) : ℚ) *
                scale width height tileSize level⌉
              ((height : ℤ) -
                ⌊((y * tileSize : ℤ) : ℚ) * scale width height tileSize level⌋) ≤
          ⌊((y * tileSize : ℤ) : ℚ) * scale width height tileSize level⌋ +
            ((height : ℤ) -
              ⌊((y * tileSize : ℤ) : ℚ) * scale width height tileSize level⌋) :=
            add_le_add_left (min_le_right _ _) _
        _ = (height : ℤ) := by ring

theorem sourceRegion_within_bounds_witness :
    0 ≤ (toSourceRegion 10000 8000 256 6 ⟨0, 0, 256, 256⟩).left ∧
    (toSourceRegion 10000 8000 256 6 ⟨0, 0, 256, 256⟩).left < (10000 : ℤ) ∧
    0 ≤ (toSourceRegion 10000 8000 256 6 ⟨0, 0, 256, 256⟩).top ∧
    (toSourceRegion 10000 8000 256 6 ⟨0, 0, 256, 256⟩).top < (8000 : ℤ) ∧
    (toSourceRegion 10000 8000 256 6 ⟨0, 0, 256, 256⟩).left +
      (toSourceRegion 10000 8000 256 6 ⟨0, 0, 256, 256⟩).w ≤ (10000 : ℤ) ∧
    (toSourceRegion 10000 8000 256 6 ⟨0, 0, 256, 256⟩).top +
      (toSourceRegion 10000 8000 256 6 ⟨0, 0, 256, 256⟩).h ≤ (8000 : ℤ) := by
  have h := sourceRegion_within_bounds 10000 8000 256 6 0 0 ⟨0, 0, 256, 256⟩
    tileRegion_example_six
  exact_mod_cast h

theorem getCachedMetadata_tiles (st : TileState) (imageId : String) :
    (getCachedMetadata st imageId).tiles = st.tiles := by
  rw [getCachedMetadata]
  split <;> rfl

theorem getCachedMetadata_codecCalls (st : TileState) (imageId : String) :
    (getCachedMetadata st imageId).codecCalls = st.codecCalls := by
  rw [getCachedMetadata]
  split <;> rfl

theorem getCachedMetadata_mem (st : TileState) (imageId : String) :
    imageId ∈ (getCachedMetadata st imageId).metadataCached := by
  rw [getCachedMetadata]
  split
  · assumption
  · exact List.mem_cons_self _ _

theorem getCachedMetadata_of_mem {st : TileState} {imageId : String}
    (h : imageId ∈ st.metadataCached) : getCachedMetadata st imageId = st := by
  rw [getCachedMetadata, if_pos h]

theorem generateTile_none {st : TileState} {outputPath : String} {level : ℤ}
    {x y tileSize originalWidth originalHeight : ℕ}
    (hoob : tileRegion originalWidth originalHeight tileSize level x y = none) :
    generateTile st outputPath level x y tileSize originalWidth
      originalHeight = (none, st) := by
  unfold generateTile
  rw [hoob]

theorem generateTile_some {st : TileState} {outputPath : String} {level : ℤ}
    {x y tileSize originalWidth originalHeight : ℕ} {r : Region}
    (hreg : tileRegion originalWidth originalHeight tileSize level x y =
      some r) :
    generateTile st outputPath level x y tileSize originalWidth
      originalHeight =
      (some outputPath,
        { st with
            tiles := outputPath :: st.tiles,
            codecCalls := st.codecCalls + 1 }) := by
  unfold generateTile
  rw [hreg]

theorem generateTileOnDemand_run (st : TileState) (dir : List String)
    (uploadsDir imageId : String) (width height : ℕ) (level : ℤ) (x y : ℕ)
    (f : String) (hres : resolveImage dir imageId = some f) :
    generateTileOnDemand st dir uploadsDir imageId width height level x y =
      if tilePath uploadsDir imageId level x y ∈
          (getCachedMetadata st imageId).tiles then
        (Except.ok (tilePath uploadsDir imageId level x y),
          getCachedMetadata st imageId)
      else
        (Except.ok (tilePath uploadsDir imageId level x y),
          (generateTile (getCachedMetadata st imageId)
            (tilePath uploadsDir imageId level x y) level x y 256
            width height).2) := by
  simp only [generateTileOnDemand, hres]

/-- Claim C2 (amended): for a tile coordinate whose scaled-level region is
empty, the request invokes no codec call and creates no tile (`generateTile`
returns `null`), but `generateTileOnDemand` does not fail: it returns the
tile cache path as if the tile had been generated. -/
theorem oob_request_creates_no_tile (st : TileState) (dir : List String)
    (uploadsDir imageId : String) (width height : ℕ) (level : ℤ) (x y : ℕ)
    (f : String) (hres : resolveImage dir imageId = some f)
    (hmiss : tilePath uploadsDir imageId level x y ∉ st.tiles)
    (hoob : tileRegion width height 256 level x y = none) :
    (generateTileOnDemand st dir uploadsDir imageId width height level x y).1 =
      Except.ok (tilePath uploadsDir imageId level x y) ∧
    (generateTileOnDemand st dir uploadsDir imageId width height
      level x y).2.tiles = st.tiles ∧
    (generateTileOnDemand st dir uploadsDir imageId width height
      level x y).2.codecCalls = st.codecCalls := by
  rw [generateTileOnDemand_run st dir uploadsDir imageId width height level x y
    f hres]
  rw [if_neg (by rw [getCachedMetadata_tiles]; exact hmiss)]
  rw [generateTile_none hoob]
  exact ⟨rfl, getCachedMetadata_tiles st imageId,
    getCachedMetadata_codecCalls st imageId⟩

theorem oob_request_creates_no_tile_witness :
    (generateTileOnDemand ⟨[], [], 0, 0⟩ ["img.tif"] "uploads" "img"
        10000 8000 0 1 0).1 =
      Except.ok (tilePath "uploads" "img" 0 1 0) ∧
    (generateTileOnDemand ⟨[], [], 0, 0⟩ ["img.tif"] "uploads" "img"
        10000 8000 0 1 0).2.tiles = [] ∧
    (generateTileOnDemand ⟨[], [], 0, 0⟩ ["img.tif"] "uploads" "img"
        10000 8000 0 1 0).2.codecCalls = 0 :=
  oob_request_creates_no_tile ⟨[], [], 0, 0⟩ ["img.tif"] "uploads" "img"
    10000 8000 0 1 0 "img.tif" (by decide) (by simp) tileRegion_example_oob

/-- Claim C2, counterexample to the claim as stated: for the 10000×8000 image
at tile `(level 0, x 1, y 0)` — out of bounds since `1*256 ≥ 157` — the
tile-request operation does not fail with an error: it returns
`Except.ok` with the tile path (while indeed creating no tile). -/
theorem oob_request_counterexample :
    (generateTileOnDemand ⟨[], [], 0, 0⟩ ["img.tif"] "uploads" "img"
        10000 8000 0 1 0).1 =
      Except.ok (tilePath "uploads" "img" 0 1 0) ∧
    ∀ e, (generateTileOnDemand ⟨[], [], 0, 0⟩ ["img.tif"] "uploads" "img"
        10000 8000 0 1 0).1 ≠ Except.error e := by
  have hres : resolveImage ["img.tif"] "img" = some "img.tif" := by decide
  rw [generateTileOnDemand_run ⟨[], [], 0, 0⟩ ["img.tif"] "uploads" "img"
    10000 8000 0 1 0 "img.tif" hres]
  rw [if_neg (by rw [getCachedMetadata_tiles]; simp)]
  exact ⟨rfl, fun e h => Except.noConfusion h⟩

/-- Claim C3: `getTile` is idempotent with respect to the on-disk tile cache:
when a file already exists at the cache path derived from
`(imageId, level, x, y)`, the call returns that path with no codec invocation
and no change to the tile set; and two sequential calls (for any coordinate)
return the same artifact, the second performing no codec invocation. -/
theorem getTile_cache_idempotent (st : TileState) (dir : List String)
    (uploadsDir imageId : String) (width height : ℕ) (level : ℤ) (x y : ℕ)
    (f : String) (hres : resolveImage dir imageId = some f) :
    (tilePath uploadsDir imageId level x y ∈ st.tiles →
      (generateTileOnDemand st dir uploadsDir imageId width height
          level x y).1 =
        Except.ok (tilePath uploadsDir imageId level x y) ∧
      (generateTileOnDemand st dir uploadsDir imageId width height
        level x y).2.tiles = st.tiles ∧
      (generateTileOnDemand st dir uploadsDir imageId width height
        level x y).2.codecCalls = st.codecCalls) ∧
    generateTileOnDemand
      (generateTileOnDemand st dir uploadsDir imageId width height
        level x y).2 dir uploadsDir imageId width height level x y =
      generateTileOnDemand st dir uploadsDir imageId width height level x y := by
  constructor
  · intro hmem
    rw [generateTileOnDemand_run st dir uploadsDir imageId width height
      level x y f hres]
    rw [if_pos (by rw [getCachedMetadata_tiles]; exact hmem)]
    exact ⟨rfl, getCachedMetadata_tiles st imageId,
      getCachedMetadata_codecCalls st imageId⟩
  · by_cases hmem : tilePath uploadsDir imageId level x y ∈
        (getCachedMetadata st imageId).tiles
    · rw [generateTileOnDemand_run st dir uploadsDir imageId width height
        level x y f hres, if_pos hmem]
      rw [generateTileOnDemand_run (getCachedMetadata st imageId) dir uploadsDir
        imageId width height level x y f hres]
      rw [getCachedMetadata_of_mem (getCachedMetadata_mem st imageId),
        if_pos hmem]
    · rw [generateTileOnDemand_run st dir uploadsDir imageId width height
        level x y f hres, if_neg hmem]
      cases hreg : tileRegion width height 256 level x y with
      | none =>
          rw [generateTile_none hreg]
          rw [generateTileOnDemand_run (getCachedMetadata st imageId) dir
            uploadsDir imageId width height level x y f hres]
          rw [getCachedMetadata_of_mem (getCachedMetadata_mem st imageId),
            if_neg hmem]
          rw [generateTile_none hreg]
      | some r =>
          rw [generateTile_some hreg]
          rw [generateTileOnDemand_run _ dir uploadsDir imageId width height
            level x y f hres]
          rw [getCachedMetadata_of_mem
            (show imageId ∈ (({ getCachedMetadata st imageId with
                tiles := tilePath uploadsDir imageId level x y ::
                  (getCachedMetadata st imageId).tiles,
                codecCalls :=
                  (getCachedMetadata st imageId).codecCalls + 1 } :
              TileState)).metadataCached from getCachedMetadata_mem st imageId)]
          rw [if_pos (List.mem_cons_self _ _)]

theorem getTile_cache_idempotent_witness :
    generateTileOnDemand
      (generateTileOnDemand ⟨[], [], 0, 0⟩ ["img.tif"] "uploads" "img"
        10000 8000 6 0 0).2 ["img.tif"] "uploads" "img" 10000 8000 6 0 0 =
    generateTileOnDemand ⟨[], [], 0, 0⟩ ["img.tif"] "uploads" "img"
      10000 8000 6 0 0 :=
  (getTile_cache_idempotent ⟨[], [], 0, 0⟩ ["img.tif"] "uploads" "img"
    10000 8000 6 0 0 "img.tif" (by decide)).2

theorem generateTileOnDemand_notFound (st : TileState) (dir : List String)
    (uploadsDir imageId : String) (width height : ℕ) (level : ℤ) (x y : ℕ)
    (hres : resolveImage dir imageId = none) :
    generateTileOnDemand st dir uploadsDir imageId width height level x y =
      (Except.error ("Image not found: " ++ imageId), st) := by
  simp only [generateTileOnDemand, hres]

theorem generateTileOnDemand_fst_ok (st : TileState) (dir : List String)
    (uploadsDir imageId : String) (width height : ℕ) (level : ℤ) (x y : ℕ)
    (f : String) (hres : resolveImage dir imageId = some f) :
    (generateTileOnDemand st dir uploadsDir imageId width height level x y).1 =
      Except.ok (tilePath uploadsDir imageId level x y) := by
  rw [generateTileOnDemand_run st dir uploadsDir imageId width height level x y
    f hres]
  split <;> rfl

/-- Claim C7: resolution of an imageId to a source path is two-step: an
exact-name lookup of `imageId + ".tif"`, then a directory scan for a filename
starting with the imageId; the operation fails with NotFound exactly when
neither step finds a file, and `generateTileOnDemand` throws
`Image not found` exactly in that case. -/
theorem resolveImage_two_step (dir : List String) (imageId : String) :
    ((imageId ++ ".tif") ∈ dir →
      resolveImage dir imageId = some (imageId ++ ".tif")) ∧
    ((imageId ++ ".tif") ∉ dir →
      resolveImage dir imageId =
        dir.find? (fun f => jsStartsWith f imageId)) ∧
    (resolveImage dir imageId = none ↔
      ((imageId ++ ".tif") ∉ dir ∧
        ∀ f ∈ dir, jsStartsWith f imageId = false)) ∧
    (∀ (st : TileState) (uploadsDir : String) (width height : ℕ) (level : ℤ)
        (x y : ℕ),
      (generateTileOnDemand st dir uploadsDir imageId width height
          level x y).1 =
        Except.error ("Image not found: " ++ imageId) ↔
      resolveImage dir imageId = none) := by
  refine ⟨fun h => by rw [resolveImage, if_pos h],
    fun h => by rw [resolveImage, if_neg h], ?_, ?_⟩
  · rw [resolveImage]
    by_cases h : (imageId ++ ".tif") ∈ dir
    · rw [if_pos h]
      simp [h]
    · rw [if_neg h, List.find?_eq_none]
      simp [h]
  · intro st uploadsDir width height level x y
    cases hres : resolveImage dir imageId with
    | none =>
        rw [generateTileOnDemand_notFound st dir uploadsDir imageId width
          height level x y hres]
        simp
    | some f =>
        rw [generateTileOnDemand_fst_ok st dir uploadsDir imageId width height
          level x y f hres]
        simp

theorem resolveImage_two_step_witness :
    resolveImage ["b.png", "imgA.scn"] "imgA" = some "imgA.scn" := by
  rw [(resolveImage_two_step ["b.png", "imgA.scn"] "imgA").2.1 (by decide)]
  decide

/-- Claim C8: upload failure atomicity: a failed metadata probe aborts
`processUpload` before the move, leaving the temp directory and the registry
untouched; a failed move fails the request with nothing registered. -/
theorem processUpload_failure_atomic (st : UploadState) (cleanupOk : Bool)
    (imageId tempName ext : String) :
    processUpload st none true cleanupOk imageId tempName ext =
      (UploadOutcome.probeFailed, st) ∧
    processUpload st none false cleanupOk imageId tempName ext =
      (UploadOutcome.probeFailed, st) ∧
    (∀ m : ImageMeta,
      processUpload st (some m) false cleanupOk imageId tempName ext =
        (UploadOutcome.moveFailed, st)) :=
  ⟨rfl, rfl, fun _ => rfl⟩

/-- Claim C10: after every successful `processUpload`, every regular file in
the uploads temp directory has been deleted (not only the file of the upload itself),
and a failing cleanup is swallowed: the call still succeeds, with the temp
directory keeping every file except the moved upload. -/
theorem processUpload_cleans_temp (st : UploadState) (m : ImageMeta)
    (imageId tempName ext : String) :
    (processUpload st (some m) true true imageId tempName ext).1 =
      UploadOutcome.ok
        { id := imageId, width := m.width, height := m.height, tileSize := 256,
          format := "jpeg", levels := calculateLevels m.width m.height 256,
          originalFormat := m.format } ∧
    (processUpload st (some m) true true imageId tempName
      ext).2.temp.all (fun e => !e.2) = true ∧
    (processUpload st (some m) true false imageId tempName ext).1 =
      UploadOutcome.ok
        { id := imageId, width := m.width, height := m.height, tileSize := 256,
          format := "jpeg", levels := calculateLevels m.width m.height 256,
          originalFormat := m.format } ∧
    (processUpload st (some m) true false imageId tempName ext).2.temp =
      st.temp.filter (fun e => e.1 != tempName) := by
  refine ⟨rfl, ?_, rfl, rfl⟩
  have htemp : (processUpload st (some m) true true imageId tempName
      ext).2.temp =
      (st.temp.filter (fun e => e.1 != tempName)).filter (fun e => !e.2) := by
    simp [processUpload]
  rw [htemp, List.all_eq_true]
  intro e he
  exact (List.mem_filter.mp he).2

end TileGen
